import Mathlib

/-
Verification of the player rendezvous and action-correlation broker of the
planetwars server (src/planetwars-server/src/modules/client_api.rs), as a
shallow embedding in Lean.
-/

namespace PlanetwarsBroker

/-! ## Wire encoding of request ids

`send_request` encodes `r.request_id as i32` (a `u32` reinterpreted as `i32`,
wrapping), and `handle_bot_messages` decodes `resp.action_request_id as u32`
(an `i32` reinterpreted as `u32`, wrapping). We model `u32` values as `Nat`
below `2 ^ 32` and `i32` values as `Int` in `[-2 ^ 31, 2 ^ 31)`. -/

/-- Rust `x as i32` applied to a `u32` value `x` (wrapping reinterpretation). -/
def u32AsI32 (x : Nat) : Int :=
  if x < 2 ^ 31 then (x : Int) else (x : Int) - 2 ^ 32

/-- Rust `y as u32` applied to an `i32` value `y` (wrapping reinterpretation). -/
def i32AsU32 (y : Int) : Nat :=
  (y % 2 ^ 32).toNat

/-! ## The event bus and request resolution

The `EventBus` type and its `resolve_request` operation belong to the
`planetwars-matchrunner` crate (`runner::match_context`), whose source is not
part of the provided files; `client_api.rs` only calls it. -/

/-- Error type for a failed request, as used from `client_api.rs`
(`RequestError::Timeout`). -/
inductive RequestError where
  | timeout
deriving DecidableEq, Repr

/-- Modelled from the spec: the `EventBus` of the `planetwars-matchrunner`
crate is missing from the provided sources. Per the spec, each pending request
`(player_id, request_id)` owns a single write-once resolution slot holding
either `Ok(response_bytes)` or `Err(Timeout)`; exactly one writer may
successfully resolve it and subsequent resolution attempts are no-ops. We model
the bus as the map from request keys to the contents of their resolution
slots (`none` = still pending / never registered). -/
structure EventBus where
  resolved : Nat × Nat → Option (Except RequestError (List Nat))

/-- Modelled from the spec: `resolve_request` writes the outcome into the
request's single-resolution slot; the first writer wins and later calls leave
the bus unchanged. -/
def EventBus.resolve_request (bus : EventBus) (request_id : Nat × Nat)
    (value : Except RequestError (List Nat)) : EventBus :=
  match bus.resolved request_id with
  | some _ => bus
  | none =>
      { resolved := fun k => if k = request_id then some value else bus.resolved k }

/-- The three writers that race to resolve one pending request in
`client_api.rs`: the response relay in `handle_bot_messages`, the deferred
timeout task spawned by `schedule_timeout`, and the push-failure path of
`send_request`. -/
inductive ResolutionAttempt where
  | responseRelay (content : List Nat)
  | deferredTimeout
  | pushFailure
deriving DecidableEq, Repr

/-- The value each writer passes to `resolve_request`: the relay passes
`Ok(resp.content)`, the other two pass `Err(RequestError::Timeout)`. -/
def attemptValue : ResolutionAttempt → Except RequestError (List Nat)
  | .responseRelay content => .ok content
  | .deferredTimeout => .error .timeout
  | .pushFailure => .error .timeout

/-- One resolution attempt against a given request key. -/
def applyAttempt (key : Nat × Nat) (a : ResolutionAttempt) (bus : EventBus) :
    EventBus :=
  bus.resolve_request key (attemptValue a)

/-! ## Message types

`pb::PlayerActionRequest` carries `action_request_id: i32` and
`content: bytes`; bytes are modelled as `List Nat`. The client-to-server
message is either an action response (same shape) or some other variant that
`handle_bot_messages` ignores. -/

/-- Wire message `pb::PlayerActionRequest` (also the shape of the client's
action response `resp`). -/
structure PlayerActionRequest where
  action_request_id : Int
  content : List Nat
deriving DecidableEq, Repr

/-- A `pb::PlayerApiClientMessage`, as discriminated by
`handle_bot_messages`: either an `Action` response or some other variant. -/
inductive PlayerApiClientMessage where
  | action (resp : PlayerActionRequest)
  | other
deriving DecidableEq, Repr

/-! ## The player router

`PlayerRouter` is a mutex-guarded `HashMap<String, PlayerConnectionState>`,
modelled as a function `String → Option PlayerConnectionState` (a `HashMap`
holds at most one entry per key). The `oneshot` handoff channels and the
message streams/channels are modelled by numeric identifiers; the contents of
completed oneshot sends are recorded in the router state so that a parked
side's `rx.await` can be read off. -/

/-- A `tokio::sync::oneshot` channel identifier. -/
abbrev SlotId := Nat

/-- Identifier of a `ClientMessages` stream (`Streaming<PlayerApiClientMessage>`). -/
abbrev StreamId := Nat

/-- Identifier of a `ServerMessages` channel
(the `mpsc::unbounded_channel` pair `(server_msg_snd, server_msg_recv)`). -/
abbrev ChanId := Nat

/-- The per-token entry stored in the routing table. In the connected state
the entry is removed from the router, so no connected variant exists. -/
inductive PlayerConnectionState where
  | reserved
  | clientConnected (tx : SlotId) (client_messages : StreamId)
  | serverConnected (tx : SlotId) (server_messages : ChanId)
deriving DecidableEq, Repr

/-- The shared state touched by the rendezvous critical sections: the routing
table, a counter allocating fresh oneshot channels, and the delivered contents
of each completed oneshot send (`sentClientMessages` for
`oneshot::Sender<ClientMessages>`, `sentServerMessages` for
`oneshot::Sender<ServerMessages>`). -/
structure RouterState where
  routing_table : String → Option PlayerConnectionState
  nextSlot : Nat
  sentClientMessages : SlotId → Option StreamId
  sentServerMessages : SlotId → Option ChanId

/-- Failure modes of a rendezvous critical section. `unknownToken` embeds
`Status::not_found("player_key not found")` on the network path and the
`expect("player key not found in routing table")` panic on the server path;
`alreadyConnected` embeds the `panic!("player already connected")` and
`panic!("server already connected")` branches. -/
inductive ConnectError where
  | unknownToken
  | alreadyConnected
deriving DecidableEq, Repr

/-- Outcome of a rendezvous critical section: either the peer's channel or
stream is available at once (`ConnState::Connected`), or this side parked an
entry and must wait on the oneshot receiver (`ConnState::Awaiting`). -/
inductive ConnOutcome (peer : Type) where
  | connected (v : peer)
  | awaiting (rx : SlotId)
deriving DecidableEq, Repr

/-- The critical section of `connect_player` (network side): atomically remove
the token's entry; on `Reserved` insert `ClientConnected` and park; on
`ServerConnected` deliver `client_messages` through the stored handoff and
take `server_messages`; on `ClientConnected` panic (the removed entry is not
reinstated). -/
def connect_player (player_key : String) (client_messages : StreamId)
    (s : RouterState) : Except ConnectError (ConnOutcome ChanId) × RouterState :=
  match s.routing_table player_key with
  | none => (.error .unknownToken, s)
  | some .reserved =>
      (.ok (.awaiting s.nextSlot),
        { s with
            routing_table := fun k =>
              if k = player_key then
                some (.clientConnected s.nextSlot client_messages)
              else s.routing_table k
            nextSlot := s.nextSlot + 1 })
  | some (.serverConnected tx server_messages) =>
      (.ok (.connected server_messages),
        { s with
            routing_table := fun k =>
              if k = player_key then none else s.routing_table k
            sentClientMessages := fun i =>
              if i = tx then some client_messages else s.sentClientMessages i })
  | some (.clientConnected _ _) =>
      (.error .alreadyConnected,
        { s with
            routing_table := fun k =>
              if k = player_key then none else s.routing_table k })

/-- The critical section of `run_bot` (server side): atomically remove the
token's entry; on `Reserved` insert `ServerConnected` and park; on
`ClientConnected` deliver `server_msg_recv` through the stored handoff and
take `client_messages`; on `ServerConnected` panic (the removed entry is not
reinstated). -/
def run_bot_rendezvous (player_key : String) (server_msg_recv : ChanId)
    (s : RouterState) : Except ConnectError (ConnOutcome StreamId) × RouterState :=
  match s.routing_table player_key with
  | none => (.error .unknownToken, s)
  | some .reserved =>
      (.ok (.awaiting s.nextSlot),
        { s with
            routing_table := fun k =>
              if k = player_key then
                some (.serverConnected s.nextSlot server_msg_recv)
              else s.routing_table k
            nextSlot := s.nextSlot + 1 })
  | some (.clientConnected tx client_messages) =>
      (.ok (.connected client_messages),
        { s with
            routing_table := fun k =>
              if k = player_key then none else s.routing_table k
            sentServerMessages := fun i =>
              if i = tx then some server_msg_recv else s.sentServerMessages i })
  | some (.serverConnected _ _) =>
      (.error .alreadyConnected,
        { s with
            routing_table := fun k =>
              if k = player_key then none else s.routing_table k })

/-- `PlayerRouter::put`: insert an entry for a key (used by `create_match`
to register `Reserved`). -/
def PlayerRouter.put (player_key : String) (entry : PlayerConnectionState)
    (s : RouterState) : RouterState :=
  { s with
      routing_table := fun k =>
        if k = player_key then some entry else s.routing_table k }

/-- `PlayerRouter::take`: remove and return the entry for a key. -/
def PlayerRouter.take (player_key : String) (s : RouterState) :
    Option PlayerConnectionState × RouterState :=
  (s.routing_table player_key,
    { s with
        routing_table := fun k =>
          if k = player_key then none else s.routing_table k })

/-! ## The remote bot handle and `send_request`

`RemoteBotHandle` holds the sending half `server_msg_snd` of the unbounded
channel whose receiving half `server_msg_recv` was parked in the router (or
delivered to the network handler). We model a channel's transferable state as
`Option (List PlayerActionRequest)`: `some queue` when the receiving half is
alive (with the queued, not-yet-consumed action requests), `none` once the
receiving half was dropped, in which case `send` fails. -/

/-- `RequestMessage` as consumed by `send_request`: a `u32` request id, the
content bytes, and the per-request timeout duration (milliseconds). -/
structure RequestMessage where
  request_id : Nat
  content : List Nat
  timeout : Nat
deriving DecidableEq, Repr

/-- `RemoteBotHandle`: the adapter object returned by `run_bot`. -/
structure RemoteBotHandle where
  sender : ChanId
  player_id : Nat
deriving DecidableEq, Repr

/-- The world visible to the adapter side: the server-message channels, the
event bus, and the deferred timeout tasks spawned so far (each recorded as
its request key and sleep duration). -/
structure BrokerState where
  channels : ChanId → Option (List PlayerActionRequest)
  event_bus : EventBus
  timers : List ((Nat × Nat) × Nat)

/-- `RemoteBotHandle::send_request`: build the wire message with
`action_request_id = r.request_id as i32`; push it on the channel. On success,
spawn `schedule_timeout((player_id, r.request_id), r.timeout)`. On send
failure (receiving half dropped), resolve the pending request as
`Err(Timeout)` immediately. -/
def send_request (h : RemoteBotHandle) (r : RequestMessage) (w : BrokerState) :
    BrokerState :=
  let req : PlayerActionRequest :=
    { action_request_id := u32AsI32 r.request_id, content := r.content }
  match w.channels h.sender with
  | some queue =>
      { w with
          channels := fun c =>
            if c = h.sender then some (queue ++ [req]) else w.channels c
          timers := w.timers ++ [((h.player_id, r.request_id), r.timeout)] }
  | none =>
      { w with
          event_bus :=
            w.event_bus.resolve_request (h.player_id, r.request_id)
              (.error .timeout) }

/-- The body of a spawned `schedule_timeout` task once its sleep has elapsed:
resolve the request as `Err(RequestError::Timeout)`. -/
def schedule_timeout_fire (request_id : Nat × Nat) (bus : EventBus) : EventBus :=
  bus.resolve_request request_id (.error .timeout)

/-- One step of the relay loop in `handle_bot_messages`: on an `Action`
message, resolve `(player_id, resp.action_request_id as u32)` with
`Ok(resp.content)`; other variants are ignored. -/
def handle_bot_message (player_id : Nat) (m : PlayerApiClientMessage)
    (bus : EventBus) : EventBus :=
  match m with
  | .action resp =>
      bus.resolve_request (player_id, i32AsU32 resp.action_request_id)
        (.ok resp.content)
  | .other => bus

/-- The connection-wait window used by `run_bot`:
`tokio::time::timeout(Duration::from_secs(10), rx)`. -/
def connectionWaitSeconds : Nat := 10

/-- The cleanup `run_bot` performs when the connection wait elapses without a
handoff: `self.router.take(&self.player_key)` removes the token's entry; if
that entry was the `ServerConnected` one this `run_bot` parked, dropping it
drops `server_msg_recv`, closing the channel so that later sends fail. -/
def run_bot_connection_timeout (player_key : String) (s : RouterState)
    (w : BrokerState) : RouterState × BrokerState :=
  let removed := s.routing_table player_key
  let s2 : RouterState :=
    { s with
        routing_table := fun k =>
          if k = player_key then none else s.routing_table k }
  match removed with
  | some (.serverConnected _ server_messages) =>
      (s2, { w with
               channels := fun c =>
                 if c = server_messages then none else w.channels c })
  | _ => (s2, w)

/-! ## The router as a transition system

To reason about every reachable router state we track, besides the router
itself, which tokens have ever been generated (`create_match` draws each
player key freshly from `gen_alphanumeric(32)`, so a key is reserved at most
once) and which tokens have a parked `run_bot` whose connection wait may still
perform the timeout cleanup. -/

/-- Global system state: the shared router plus bookkeeping of generated
tokens and of parked server-side waits. -/
structure SysState where
  router : RouterState
  used : String → Bool
  serverWaiting : String → Bool

/-- Whether a rendezvous critical section parked this side
(`ConnState::Awaiting`). -/
def isAwaiting {peer : Type} : Except ConnectError (ConnOutcome peer) → Bool
  | .ok (.awaiting _) => true
  | _ => false

/-- The atomic events the code performs on the routing table: `create_match`
registering a fresh `Reserved` key, the two rendezvous critical sections, and
the timeout cleanup of a parked `run_bot`. -/
inductive Step : SysState → SysState → Prop where
  | reserve (s : SysState) (key : String) (hfresh : s.used key = false) :
      Step s
        { router := PlayerRouter.put key .reserved s.router
          used := fun k => if k = key then true else s.used k
          serverWaiting := s.serverWaiting }
  | connectPlayer (s : SysState) (key : String) (cm : StreamId) :
      Step s
        { router := (connect_player key cm s.router).2
          used := s.used
          serverWaiting := s.serverWaiting }
  | runBot (s : SysState) (key : String) (sm : ChanId) :
      Step s
        { router := (run_bot_rendezvous key sm s.router).2
          used := s.used
          serverWaiting := fun k =>
            if k = key then
              (isAwaiting (run_bot_rendezvous key sm s.router).1
                || s.serverWaiting k)
            else s.serverWaiting k }
  | timeoutCleanup (s : SysState) (key : String)
      (hw : s.serverWaiting key = true) :
      Step s
        { router := (PlayerRouter.take key s.router).2
          used := s.used
          serverWaiting := fun k => if k = key then false else s.serverWaiting k }

/-- The state of a freshly started process: empty routing table, no tokens
generated, no parked waits. -/
def initState : SysState :=
  { router :=
      { routing_table := fun _ => none
        nextSlot := 0
        sentClientMessages := fun _ => none
        sentServerMessages := fun _ => none }
    used := fun _ => false
    serverWaiting := fun _ => false }

/-- Reachability of a system state from process start. -/
def Reachable (s : SysState) : Prop :=
  Relation.ReflTransGen Step initState s

/-- Auxiliary invariant of reachable states: an entry exists only for a
generated token, and a token with a parked server-side wait is generated and
holds either no entry or the parked `ServerConnected` entry. -/
def SysInv (s : SysState) : Prop :=
  (∀ k, (s.router.routing_table k).isSome → s.used k = true) ∧
  (∀ k, s.serverWaiting k = true →
    s.used k = true ∧
      (s.router.routing_table k = none ∨
        ∃ tx sm, s.router.routing_table k = some (.serverConnected tx sm)))

/-- The per-token lifecycle allowed by the spec: a token's entry is created as
`Reserved`, moves to exactly one of the single-side states, and is then
removed; it never returns to `Reserved` and never switches sides. -/
inductive KeyTransition :
    Option PlayerConnectionState → Option PlayerConnectionState → Prop where
  | unchanged (e : Option PlayerConnectionState) : KeyTransition e e
  | reserve : KeyTransition none (some .reserved)
  | clientArrives (tx : SlotId) (cm : StreamId) :
      KeyTransition (some .reserved) (some (.clientConnected tx cm))
  | serverArrives (tx : SlotId) (sm : ChanId) :
      KeyTransition (some .reserved) (some (.serverConnected tx sm))
  | clientRemoved (tx : SlotId) (cm : StreamId) :
      KeyTransition (some (.clientConnected tx cm)) none
  | serverRemoved (tx : SlotId) (sm : ChanId) :
      KeyTransition (some (.serverConnected tx sm)) none

/-! ## Concrete states used to instantiate the theorems -/

/-- An event bus with every request still unresolved. -/
def emptyBus : EventBus := { resolved := fun _ => none }

/-- A router with an empty routing table. -/
def emptyRouter : RouterState :=
  { routing_table := fun _ => none
    nextSlot := 0
    sentClientMessages := fun _ => none
    sentServerMessages := fun _ => none }

/-- A router holding a `Reserved` entry for token `T`. -/
def reservedRouter : RouterState := PlayerRouter.put "T" .reserved emptyRouter

/-- A router holding a `ClientConnected` entry for token `T`. -/
def clientRouter : RouterState :=
  PlayerRouter.put "T" (.clientConnected 0 5) emptyRouter

/-- A router holding a `ServerConnected` entry for token `T`. -/
def serverRouter : RouterState :=
  PlayerRouter.put "T" (.serverConnected 0 5) emptyRouter

/-- A broker world where channel `5` is open and empty. -/
def openWorld : BrokerState :=
  { channels := fun c => if c = 5 then some [] else none
    event_bus := emptyBus
    timers := [] }

/-- A broker world where every channel's receiving half has been dropped. -/
def closedWorld : BrokerState :=
  { channels := fun _ => none
    event_bus := emptyBus
    timers := [] }

/-- The system state after `create_match` registered fresh token `T`. -/
def reservedSys : SysState :=
  { router := PlayerRouter.put "T" .reserved initState.router
    used := fun k => if k = "T" then true else initState.used k
    serverWaiting := initState.serverWaiting }

/-! ## Helper lemmas on request resolution -/

theorem resolve_request_of_resolved (bus : EventBus) (key : Nat × Nat)
    (v w : Except RequestError (List Nat)) (h : bus.resolved key = some w) :
    bus.resolve_request key v = bus := by
  unfold EventBus.resolve_request
  rw [h]

theorem resolve_request_of_pending (bus : EventBus) (key : Nat × Nat)
    (v : Except RequestError (List Nat)) (h : bus.resolved key = none) :
    (bus.resolve_request key v).resolved key = some v := by
  unfold EventBus.resolve_request
  rw [h]
  simp

theorem applyAttempt_foldl_of_resolved (key : Nat × Nat)
    (v : Except RequestError (List Nat)) (later : List ResolutionAttempt)
    (bus : EventBus) (h : bus.resolved key = some v) :
    later.foldl (fun b a => applyAttempt key a b) bus = bus := by
  induction later with
  | nil => rfl
  | cons a rest ih =>
      have hstep : applyAttempt key a bus = bus :=
        resolve_request_of_resolved bus key _ v h
      simpa [List.foldl, hstep] using ih

/-- C1: for a pending request key, whichever of the three writers (response
relay, deferred timeout task, push-failure path) resolves the slot first
determines the observed outcome, and every later `resolve_request` call for
the same key is a no-op that does not alter the bus at all. -/
theorem single_resolution (bus : EventBus) (key : Nat × Nat)
    (hpending : bus.resolved key = none)
    (first : ResolutionAttempt) (later : List ResolutionAttempt) :
    ((later.foldl (fun b a => applyAttempt key a b)
        (applyAttempt key first bus)).resolved key = some (attemptValue first))
    ∧ ∀ a2 : ResolutionAttempt,
        applyAttempt key a2 (applyAttempt key first bus)
          = applyAttempt key first bus := by
  have h1 : (applyAttempt key first bus).resolved key
      = some (attemptValue first) :=
    resolve_request_of_pending bus key _ hpending
  refine ⟨?_, fun a2 => resolve_request_of_resolved _ _ _ _ h1⟩
  rw [applyAttempt_foldl_of_resolved key (attemptValue first) later _ h1, h1]

/-- Witness for C1: the deferred timeout resolves request `(0, 0)` first; a
later response-relay attempt is a no-op. -/
theorem single_resolution_witness :
    (emptyBus.resolved (0, 0) = none)
    ∧ (([ResolutionAttempt.responseRelay [1]].foldl
          (fun b a => applyAttempt (0, 0) a b)
          (applyAttempt (0, 0) .deferredTimeout emptyBus)).resolved (0, 0)
        = some (attemptValue .deferredTimeout))
    ∧ ∀ a2 : ResolutionAttempt,
        applyAttempt (0, 0) a2 (applyAttempt (0, 0) .deferredTimeout emptyBus)
          = applyAttempt (0, 0) .deferredTimeout emptyBus :=
  ⟨rfl, single_resolution emptyBus (0, 0) rfl .deferredTimeout
    [ResolutionAttempt.responseRelay [1]]⟩

/-- C10: the request-id correlation key survives the wire encoding: for every
`u32` value `x`, decoding `x as i32` back with `as u32` yields `x`, so the key
the relay resolves equals the key `send_request` registered. -/
theorem request_id_roundtrip (player_id x : Nat) (content : List Nat)
    (bus : EventBus) (hx : x < 2 ^ 32) :
    i32AsU32 (u32AsI32 x) = x
    ∧ handle_bot_message player_id
        (.action { action_request_id := u32AsI32 x, content := content }) bus
      = bus.resolve_request (player_id, x) (.ok content) := by
  have hround : i32AsU32 (u32AsI32 x) = x := by
    unfold u32AsI32 i32AsU32
    split <;> omega
  exact ⟨hround, by simp [handle_bot_message, hround]⟩

/-- Witness for C10 at `x = 2 ^ 31`, a request id that appears negative on the
wire. -/
theorem request_id_roundtrip_witness :
    (2 ^ 31 < 2 ^ 32)
    ∧ (i32AsU32 (u32AsI32 (2 ^ 31)) = 2 ^ 31
      ∧ handle_bot_message 0
          (.action { action_request_id := u32AsI32 (2 ^ 31), content := [7] })
          emptyBus
        = emptyBus.resolve_request (0, 2 ^ 31) (.ok [7])) :=
  ⟨by norm_num, request_id_roundtrip 0 (2 ^ 31) [7] emptyBus (by norm_num)⟩

/-- C2: rendezvous is order-independent. From a `Reserved` entry, running the
network side first parks it on a handoff slot through which the server side
later delivers the adapter's channel, while the server side completes at once
with the client's stream; in the opposite order the roles swap. Either way the
same pair is linked: the network handler ends up with the adapter's channel
`sm` and the adapter ends up with the client's stream `cm`; the first arrival
waits, the second completes without waiting. -/
theorem rendezvous_order_independent (s : RouterState) (key : String)
    (cm : StreamId) (sm : ChanId) (h : s.routing_table key = some .reserved) :
    ((connect_player key cm s).1 = .ok (.awaiting s.nextSlot)
      ∧ (run_bot_rendezvous key sm (connect_player key cm s).2).1
        = .ok (.connected cm)
      ∧ (run_bot_rendezvous key sm
          (connect_player key cm s).2).2.sentServerMessages s.nextSlot
        = some sm)
    ∧ ((run_bot_rendezvous key sm s).1 = .ok (.awaiting s.nextSlot)
      ∧ (connect_player key cm (run_bot_rendezvous key sm s).2).1
        = .ok (.connected sm)
      ∧ (connect_player key cm
          (run_bot_rendezvous key sm s).2).2.sentClientMessages s.nextSlot
        = some cm) := by
  constructor
  · simp [connect_player, run_bot_rendezvous, h]
  · simp [run_bot_rendezvous, connect_player, h]

/-- Witness for C2 on token `T` with client stream `3` and server channel `4`. -/
theorem rendezvous_order_independent_witness :
    (reservedRouter.routing_table "T" = some .reserved)
    ∧ (((connect_player "T" 3 reservedRouter).1
          = .ok (.awaiting reservedRouter.nextSlot)
        ∧ (run_bot_rendezvous "T" 4 (connect_player "T" 3 reservedRouter).2).1
          = .ok (.connected 3)
        ∧ (run_bot_rendezvous "T" 4
            (connect_player "T" 3 reservedRouter).2).2.sentServerMessages
              reservedRouter.nextSlot
          = some 4)
      ∧ ((run_bot_rendezvous "T" 4 reservedRouter).1
          = .ok (.awaiting reservedRouter.nextSlot)
        ∧ (connect_player "T" 3 (run_bot_rendezvous "T" 4 reservedRouter).2).1
          = .ok (.connected 4)
        ∧ (connect_player "T" 3
            (run_bot_rendezvous "T" 4 reservedRouter).2).2.sentClientMessages
              reservedRouter.nextSlot
          = some 3)) :=
  ⟨by decide, rendezvous_order_independent reservedRouter "T" 3 4 (by decide)⟩

/-- C5: once both sides of a token's rendezvous have completed, the token is
gone from the router and a later `connect_player` with it fails with
`UnknownToken` (in either completion order). -/
theorem token_single_use (s : RouterState) (key : String) (cm sm cm2 : Nat)
    (h : s.routing_table key = some .reserved) :
    ((run_bot_rendezvous key sm
        (connect_player key cm s).2).2.routing_table key = none
      ∧ (connect_player key cm2
          (run_bot_rendezvous key sm (connect_player key cm s).2).2).1
        = .error .unknownToken)
    ∧ ((connect_player key cm
        (run_bot_rendezvous key sm s).2).2.routing_table key = none
      ∧ (connect_player key cm2
          (connect_player key cm (run_bot_rendezvous key sm s).2).2).1
        = .error .unknownToken) := by
  constructor
  · simp [connect_player, run_bot_rendezvous, h]
  · simp [run_bot_rendezvous, connect_player, h]

/-- Witness for C5 on token `T`. -/
theorem token_single_use_witness :
    (reservedRouter.routing_table "T" = some .reserved)
    ∧ (((run_bot_rendezvous "T" 4
          (connect_player "T" 3 reservedRouter).2).2.routing_table "T" = none
        ∧ (connect_player "T" 6
            (run_bot_rendezvous "T" 4 (connect_player "T" 3 reservedRouter).2).2).1
          = .error .unknownToken)
      ∧ ((connect_player "T" 3
            (run_bot_rendezvous "T" 4 reservedRouter).2).2.routing_table "T" = none
        ∧ (connect_player "T" 6
            (connect_player "T" 3 (run_bot_rendezvous "T" 4 reservedRouter).2).2).1
          = .error .unknownToken)) :=
  ⟨by decide, token_single_use reservedRouter "T" 3 4 6 (by decide)⟩

/-- C6: a rendezvous attempt for an absent token fails with `UnknownToken` on
both paths and returns the router unchanged, so repeated attempts fail the
same way and never create an entry. -/
theorem unknown_token_rejected (s : RouterState) (key : String)
    (cm cm2 sm sm2 : Nat) (h : s.routing_table key = none) :
    (connect_player key cm s = (.error .unknownToken, s))
    ∧ (run_bot_rendezvous key sm s = (.error .unknownToken, s))
    ∧ (connect_player key cm2 (connect_player key cm s).2
        = (.error .unknownToken, s))
    ∧ (run_bot_rendezvous key sm2 (run_bot_rendezvous key sm s).2
        = (.error .unknownToken, s)) := by
  simp [connect_player, run_bot_rendezvous, h]

/-- Witness for C6 on the unknown token `T3`. -/
theorem unknown_token_rejected_witness :
    (emptyRouter.routing_table "T3" = none)
    ∧ ((connect_player "T3" 3 emptyRouter = (.error .unknownToken, emptyRouter))
      ∧ (run_bot_rendezvous "T3" 4 emptyRouter
          = (.error .unknownToken, emptyRouter))
      ∧ (connect_player "T3" 6 (connect_player "T3" 3 emptyRouter).2
          = (.error .unknownToken, emptyRouter))
      ∧ (run_bot_rendezvous "T3" 7 (run_bot_rendezvous "T3" 4 emptyRouter).2
          = (.error .unknownToken, emptyRouter))) :=
  ⟨rfl, unknown_token_rejected emptyRouter "T3" 3 6 4 7 rfl⟩

/-- C4 counterexample: it is not the case that a duplicate same-side
rendezvous leaves the earlier arrival's router entry intact — the entry is
removed by the critical section's `remove` before the panic and never
reinstated. -/
theorem already_connected_intact_cex :
    ¬ (∀ (s : RouterState) (key : String) (tx cm cm2 : Nat),
        s.routing_table key = some (.clientConnected tx cm) →
          (connect_player key cm2 s).1 = .error .alreadyConnected
          ∧ (connect_player key cm2 s).2.routing_table key
            = some (.clientConnected tx cm)) := by
  intro hclaim
  have h := (hclaim clientRouter "T" 0 5 7 (by decide)).2
  simp [connect_player, clientRouter, PlayerRouter.put, emptyRouter] at h

/-- C4 as amended: a duplicate same-side rendezvous fails with
`AlreadyConnected` (a panic in the source), but the earlier arrival's router
entry has already been removed by the atomic take and is not reinstated; this
holds on both the network and the server path. -/
theorem already_connected_removes_entry (s : RouterState) (key : String)
    (tx p q : Nat) :
    (s.routing_table key = some (.clientConnected tx p) →
      (connect_player key q s).1 = .error .alreadyConnected
      ∧ (connect_player key q s).2.routing_table key = none)
    ∧ (s.routing_table key = some (.serverConnected tx p) →
      (run_bot_rendezvous key q s).1 = .error .alreadyConnected
      ∧ (run_bot_rendezvous key q s).2.routing_table key = none) := by
  constructor <;> intro h <;> simp [connect_player, run_bot_rendezvous, h]

/-- Witness for the amended C4 on both paths. -/
theorem already_connected_removes_entry_witness :
    (clientRouter.routing_table "T" = some (.clientConnected 0 5))
    ∧ ((connect_player "T" 7 clientRouter).1 = .error .alreadyConnected
      ∧ (connect_player "T" 7 clientRouter).2.routing_table "T" = none)
    ∧ (serverRouter.routing_table "T" = some (.serverConnected 0 5))
    ∧ ((run_bot_rendezvous "T" 7 serverRouter).1 = .error .alreadyConnected
      ∧ (run_bot_rendezvous "T" 7 serverRouter).2.routing_table "T" = none) :=
  ⟨by decide,
    (already_connected_removes_entry clientRouter "T" 0 5 7).1 (by decide),
    by decide,
    (already_connected_removes_entry serverRouter "T" 0 5 7).2 (by decide)⟩

/-- C9: when the push onto the outbound channel fails because the receiving
half is gone, `send_request` resolves the pending request as `Timeout` in the
same call — no message is delivered anywhere and no deferred timer is needed —
so a disconnected bot yields the same per-turn outcome as an unresponsive
one. -/
theorem push_failure_resolves_timeout (h : RemoteBotHandle)
    (r : RequestMessage) (w : BrokerState)
    (hch : w.channels h.sender = none) :
    (send_request h r w).event_bus
      = w.event_bus.resolve_request (h.player_id, r.request_id) (.error .timeout)
    ∧ (send_request h r w).channels = w.channels
    ∧ (send_request h r w).timers = w.timers := by
  simp [send_request, hch]

/-- Witness for C9 on a closed channel. -/
theorem push_failure_resolves_timeout_witness :
    (closedWorld.channels (RemoteBotHandle.mk 5 0).sender = none)
    ∧ ((send_request (RemoteBotHandle.mk 5 0)
          (RequestMessage.mk 1 [2] 5) closedWorld).event_bus
        = closedWorld.event_bus.resolve_request (0, 1) (.error .timeout)
      ∧ (send_request (RemoteBotHandle.mk 5 0)
          (RequestMessage.mk 1 [2] 5) closedWorld).channels
        = closedWorld.channels
      ∧ (send_request (RemoteBotHandle.mk 5 0)
          (RequestMessage.mk 1 [2] 5) closedWorld).timers
        = closedWorld.timers) :=
  ⟨rfl, push_failure_resolves_timeout (RemoteBotHandle.mk 5 0)
    (RequestMessage.mk 1 [2] 5) closedWorld rfl⟩

/-- C7 counterexample: it is not the case that every `send_request` schedules
a deferred timeout regardless of the push's outcome — when the push fails, no
timer task is spawned. -/
theorem timeout_always_scheduled_cex :
    ¬ (∀ (h : RemoteBotHandle) (r : RequestMessage) (w : BrokerState),
        (send_request h r w).timers
          = w.timers ++ [((h.player_id, r.request_id), r.timeout)]) := by
  intro hclaim
  have h := hclaim (RemoteBotHandle.mk 5 0) (RequestMessage.mk 1 [] 5) closedWorld
  simp [send_request, closedWorld] at h

/-- C7 as amended: `send_request` schedules the deferred `Timeout` resolution,
to fire after `r.timeout`, exactly when the push onto the outbound channel
succeeds; when the push fails, no timer is spawned (the request is instead
resolved as `Timeout` immediately). -/
theorem timeout_scheduled_on_push_success (h : RemoteBotHandle)
    (r : RequestMessage) (w : BrokerState) :
    (send_request h r w).timers
      = match w.channels h.sender with
        | some _ => w.timers ++ [((h.player_id, r.request_id), r.timeout)]
        | none => w.timers := by
  cases hc : w.channels h.sender <;> simp [send_request, hc]

/-- C3: when the 10-second connection wait of `run_bot` elapses with the
parked `ServerConnected` entry still in place (the network side never
rendezvoused), the cleanup removes the token's entry and drops the channel's
receiving half; from then on every `send_request` on the adapter resolves the
pending request as `Timeout` immediately, delivers nothing, spawns no timer,
and leaves the channel closed (so the same holds for each subsequent call). -/
theorem adapter_disconnected_mode (key : String) (tx : SlotId) (ch : ChanId)
    (s : RouterState) (w : BrokerState) (h : RemoteBotHandle)
    (hentry : s.routing_table key = some (.serverConnected tx ch))
    (hsender : h.sender = ch) :
    connectionWaitSeconds = 10
    ∧ (run_bot_connection_timeout key s w).1.routing_table key = none
    ∧ (run_bot_connection_timeout key s w).2.channels h.sender = none
    ∧ ∀ (w2 : BrokerState) (r : RequestMessage),
        w2.channels h.sender = none →
          (send_request h r w2).event_bus
            = w2.event_bus.resolve_request (h.player_id, r.request_id)
                (.error .timeout)
          ∧ (send_request h r w2).channels = w2.channels
          ∧ (send_request h r w2).timers = w2.timers := by
  refine ⟨rfl, ?_, ?_, ?_⟩
  · simp [run_bot_connection_timeout, hentry]
  · simp [run_bot_connection_timeout, hentry, hsender]
  · intro w2 r hw2
    simp [send_request, hw2]

/-- Witness for C3 on token `T` with adapter channel `5`. -/
theorem adapter_disconnected_mode_witness :
    (serverRouter.routing_table "T" = some (.serverConnected 0 5))
    ∧ ((RemoteBotHandle.mk 5 0).sender = 5)
    ∧ (connectionWaitSeconds = 10
      ∧ (run_bot_connection_timeout "T" serverRouter openWorld).1.routing_table "T"
          = none
      ∧ (run_bot_connection_timeout "T" serverRouter openWorld).2.channels
          (RemoteBotHandle.mk 5 0).sender = none
      ∧ ∀ (w2 : BrokerState) (r : RequestMessage),
          w2.channels (RemoteBotHandle.mk 5 0).sender = none →
            (send_request (RemoteBotHandle.mk 5 0) r w2).event_bus
              = w2.event_bus.resolve_request (0, r.request_id) (.error .timeout)
            ∧ (send_request (RemoteBotHandle.mk 5 0) r w2).channels = w2.channels
            ∧ (send_request (RemoteBotHandle.mk 5 0) r w2).timers = w2.timers) :=
  ⟨by decide, rfl,
    adapter_disconnected_mode "T" 0 5 serverRouter openWorld
      (RemoteBotHandle.mk 5 0) (by decide) rfl⟩

/-! ## Helper lemmas on the router transition system -/

theorem connect_player_table_lookup (key : String) (cm : StreamId)
    (s : RouterState) (k : String) :
    (connect_player key cm s).2.routing_table k = s.routing_table k
    ∨ (connect_player key cm s).2.routing_table k = none
    ∨ (k = key ∧ s.routing_table key = some .reserved
        ∧ (connect_player key cm s).2.routing_table k
          = some (.clientConnected s.nextSlot cm)) := by
  by_cases hk : k = key
  · subst hk
    cases hc : s.routing_table k with
    | none => left; simp [connect_player, hc]
    | some e =>
        cases e with
        | reserved => right; right; exact ⟨rfl, rfl, by simp [connect_player, hc]⟩
        | clientConnected tx p => right; left; simp [connect_player, hc]
        | serverConnected tx p => right; left; simp [connect_player, hc]
  · left
    cases hc : s.routing_table key with
    | none => simp [connect_player, hc]
    | some e => cases e <;> simp [connect_player, hc, hk]

theorem run_bot_table_lookup (key : String) (sm : ChanId)
    (s : RouterState) (k : String) :
    (run_bot_rendezvous key sm s).2.routing_table k = s.routing_table k
    ∨ (run_bot_rendezvous key sm s).2.routing_table k = none
    ∨ (k = key ∧ s.routing_table key = some .reserved
        ∧ (run_bot_rendezvous key sm s).2.routing_table k
          = some (.serverConnected s.nextSlot sm)) := by
  by_cases hk : k = key
  · subst hk
    cases hc : s.routing_table k with
    | none => left; simp [run_bot_rendezvous, hc]
    | some e =>
        cases e with
        | reserved =>
            right; right; exact ⟨rfl, rfl, by simp [run_bot_rendezvous, hc]⟩
        | clientConnected tx p => right; left; simp [run_bot_rendezvous, hc]
        | serverConnected tx p => right; left; simp [run_bot_rendezvous, hc]
  · left
    cases hc : s.routing_table key with
    | none => simp [run_bot_rendezvous, hc]
    | some e => cases e <;> simp [run_bot_rendezvous, hc, hk]

theorem run_bot_awaiting_iff (key : String) (sm : ChanId) (s : RouterState) :
    isAwaiting (run_bot_rendezvous key sm s).1 = true
      ↔ s.routing_table key = some .reserved := by
  cases hc : s.routing_table key with
  | none => simp [run_bot_rendezvous, isAwaiting, hc]
  | some e => cases e <;> simp [run_bot_rendezvous, isAwaiting, hc]

theorem run_bot_reserved_table (key : String) (sm : ChanId) (s : RouterState)
    (h : s.routing_table key = some .reserved) :
    (run_bot_rendezvous key sm s).2.routing_table key
      = some (.serverConnected s.nextSlot sm) := by
  simp [run_bot_rendezvous, h]

theorem inv_init : SysInv initState := by
  refine ⟨fun k h => ?_, fun k h => ?_⟩ <;> simp [initState] at h

theorem inv_step {s s2 : SysState} (hinv : SysInv s) (hstep : Step s s2) :
    SysInv s2 := by
  obtain ⟨hused, hwait⟩ := hinv
  cases hstep with
  | reserve key hfresh =>
      refine ⟨fun k hk => ?_, fun k hk => ?_⟩
      · simp only [PlayerRouter.put] at hk
        by_cases hkey : k = key
        · simp [hkey]
        · rw [if_neg hkey] at hk
          simp only []
          rw [if_neg hkey]
          exact hused k hk
      · obtain ⟨hu, hopt⟩ := hwait k hk
        by_cases hkey : k = key
        · subst hkey
          rw [hfresh] at hu
          simp at hu
        · refine ⟨?_, ?_⟩
          · simp only []
            rw [if_neg hkey]
            exact hu
          · simpa [PlayerRouter.put, hkey] using hopt
  | connectPlayer key cm =>
      refine ⟨fun k hk => ?_, fun k hk => ?_⟩
      · rcases connect_player_table_lookup key cm s.router k
          with he | he | ⟨hkk, hres, he⟩
        · rw [he] at hk; exact hused k hk
        · rw [he] at hk; simp at hk
        · subst hkk
          apply hused
          rw [hres]
          rfl
      · obtain ⟨hu, hopt⟩ := hwait k hk
        refine ⟨hu, ?_⟩
        rcases connect_player_table_lookup key cm s.router k
          with he | he | ⟨hkk, hres, he⟩
        · rw [he]; exact hopt
        · rw [he]; left; rfl
        · subst hkk
          rcases hopt with hnone | ⟨tx, p, hsc⟩
          · rw [hres] at hnone; simp at hnone
          · rw [hres] at hsc; simp at hsc
  | runBot key sm =>
      refine ⟨fun k hk => ?_, fun k hk => ?_⟩
      · rcases run_bot_table_lookup key sm s.router k
          with he | he | ⟨hkk, hres, he⟩
        · rw [he] at hk; exact hused k hk
        · rw [he] at hk; simp at hk
        · subst hkk
          apply hused
          rw [hres]
          rfl
      · by_cases hkey : k = key
        · subst hkey
          simp only [if_pos rfl] at hk
          rcases Bool.or_eq_true_iff.mp hk with hA | hW
          · have hres : s.router.routing_table k = some .reserved :=
              (run_bot_awaiting_iff k sm s.router).mp hA
            refine ⟨hused k (by rw [hres]; rfl), Or.inr ?_⟩
            exact ⟨s.router.nextSlot, sm, run_bot_reserved_table k sm s.router hres⟩
          · obtain ⟨hu, hopt⟩ := hwait k hW
            refine ⟨hu, ?_⟩
            rcases hopt with hnone | ⟨tx, p, hsc⟩
            · left; simp [run_bot_rendezvous, hnone]
            · left; simp [run_bot_rendezvous, hsc]
        · simp only [if_neg hkey] at hk
          obtain ⟨hu, hopt⟩ := hwait k hk
          refine ⟨hu, ?_⟩
          rcases run_bot_table_lookup key sm s.router k
            with he | he | ⟨hkk, hres, he⟩
          · rw [he]; exact hopt
          · rw [he]; left; rfl
          · exact absurd hkk hkey
  | timeoutCleanup key hw =>
      refine ⟨fun k hk => ?_, fun k hk => ?_⟩
      · simp only [PlayerRouter.take] at hk
        by_cases hkey : k = key
        · rw [if_pos hkey] at hk
          simp at hk
        · rw [if_neg hkey] at hk
          exact hused k hk
      · by_cases hkey : k = key
        · simp only [if_pos hkey] at hk
          simp at hk
        · simp only [if_neg hkey] at hk
          obtain ⟨hu, hopt⟩ := hwait k hk
          refine ⟨hu, ?_⟩
          simpa [PlayerRouter.take, hkey] using hopt

theorem reachable_inv {s : SysState} (h : Reachable s) : SysInv s := by
  unfold Reachable at h
  induction h with
  | refl => exact inv_init
  | tail _ hstep ih => exact inv_step ih hstep

theorem connect_player_key_step (key : String) (cm : StreamId)
    (s : RouterState) (k : String) :
    KeyTransition (s.routing_table k)
      ((connect_player key cm s).2.routing_table k) := by
  by_cases hk : k = key
  · subst hk
    cases hc : s.routing_table k with
    | none =>
        have h2 : (connect_player k cm s).2 = s := by simp [connect_player, hc]
        rw [h2, hc]
        exact .unchanged none
    | some e =>
        cases e with
        | reserved =>
            have h2 : (connect_player k cm s).2.routing_table k
                = some (.clientConnected s.nextSlot cm) := by
              simp [connect_player, hc]
            rw [h2]
            exact .clientArrives _ _
        | clientConnected tx p =>
            have h2 : (connect_player k cm s).2.routing_table k = none := by
              simp [connect_player, hc]
            rw [h2]
            exact .clientRemoved tx p
        | serverConnected tx p =>
            have h2 : (connect_player k cm s).2.routing_table k = none := by
              simp [connect_player, hc]
            rw [h2]
            exact .serverRemoved tx p
  · have h2 : (connect_player key cm s).2.routing_table k = s.routing_table k := by
      cases hc : s.routing_table key with
      | none => simp [connect_player, hc]
      | some e => cases e <;> simp [connect_player, hc, hk]
    rw [h2]
    exact .unchanged _

theorem run_bot_key_step (key : String) (sm : ChanId)
    (s : RouterState) (k : String) :
    KeyTransition (s.routing_table k)
      ((run_bot_rendezvous key sm s).2.routing_table k) := by
  by_cases hk : k = key
  · subst hk
    cases hc : s.routing_table k with
    | none =>
        have h2 : (run_bot_rendezvous k sm s).2 = s := by
          simp [run_bot_rendezvous, hc]
        rw [h2, hc]
        exact .unchanged none
    | some e =>
        cases e with
        | reserved =>
            have h2 : (run_bot_rendezvous k sm s).2.routing_table k
                = some (.serverConnected s.nextSlot sm) := by
              simp [run_bot_rendezvous, hc]
            rw [h2]
            exact .serverArrives _ _
        | clientConnected tx p =>
            have h2 : (run_bot_rendezvous k sm s).2.routing_table k = none := by
              simp [run_bot_rendezvous, hc]
            rw [h2]
            exact .clientRemoved tx p
        | serverConnected tx p =>
            have h2 : (run_bot_rendezvous k sm s).2.routing_table k = none := by
              simp [run_bot_rendezvous, hc]
            rw [h2]
            exact .serverRemoved tx p
  · have h2 : (run_bot_rendezvous key sm s).2.routing_table k
        = s.routing_table k := by
      cases hc : s.routing_table key with
      | none => simp [run_bot_rendezvous, hc]
      | some e => cases e <;> simp [run_bot_rendezvous, hc, hk]
    rw [h2]
    exact .unchanged _

/-- C8: every atomic critical section performed on a reachable router state
moves each token's entry only along the allowed lifecycle
`absent → Reserved → (ClientConnected | ServerConnected) → removed` (the table
is a function, so at most one entry per token exists by construction), and
whenever a rendezvous critical section matches the second party
(`ConnState::Connected`), that same critical section leaves the token absent —
no connected state is ever stored in the router. -/
theorem router_entry_lifecycle (s s2 : SysState) (hreach : Reachable s)
    (hstep : Step s s2) :
    (∀ k, KeyTransition (s.router.routing_table k) (s2.router.routing_table k))
    ∧ (∀ (key : String) (cm : StreamId) (ch : ChanId),
        (connect_player key cm s.router).1 = .ok (.connected ch) →
          (connect_player key cm s.router).2.routing_table key = none)
    ∧ (∀ (key : String) (sm : ChanId) (st : StreamId),
        (run_bot_rendezvous key sm s.router).1 = .ok (.connected st) →
          (run_bot_rendezvous key sm s.router).2.routing_table key = none) := by
  obtain ⟨hused, hwait⟩ := reachable_inv hreach
  refine ⟨?_, ?_, ?_⟩
  · intro k
    cases hstep with
    | reserve key hfresh =>
        by_cases hkey : k = key
        · subst hkey
          have hnone : s.router.routing_table k = none := by
            cases hc : s.router.routing_table k with
            | none => rfl
            | some e =>
                have hu := hused k (by rw [hc]; rfl)
                rw [hfresh] at hu
                simp at hu
          have h2 : (PlayerRouter.put k .reserved s.router).routing_table k
              = some .reserved := by
            simp [PlayerRouter.put]
          rw [hnone]
          show KeyTransition none
            ((PlayerRouter.put k .reserved s.router).routing_table k)
          rw [h2]
          exact .reserve
        · show KeyTransition (s.router.routing_table k)
            ((PlayerRouter.put key .reserved s.router).routing_table k)
          have h2 : (PlayerRouter.put key .reserved s.router).routing_table k
              = s.router.routing_table k := by
            simp [PlayerRouter.put, hkey]
          rw [h2]
          exact .unchanged _
    | connectPlayer key cm => exact connect_player_key_step key cm s.router k
    | runBot key sm => exact run_bot_key_step key sm s.router k
    | timeoutCleanup key hw =>
        show KeyTransition (s.router.routing_table k)
          ((PlayerRouter.take key s.router).2.routing_table k)
        by_cases hkey : k = key
        · subst hkey
          obtain ⟨hu, hopt⟩ := hwait k hw
          have htake : (PlayerRouter.take k s.router).2.routing_table k = none := by
            simp [PlayerRouter.take]
          rw [htake]
          rcases hopt with hnone | ⟨tx, sm, hsc⟩
          · rw [hnone]; exact .unchanged none
          · rw [hsc]; exact .serverRemoved tx sm
        · have h2 : (PlayerRouter.take key s.router).2.routing_table k
              = s.router.routing_table k := by
            simp [PlayerRouter.take, hkey]
          rw [h2]
          exact .unchanged _
  · intro key cm ch hok
    cases hc : s.router.routing_table key with
    | none => simp [connect_player, hc] at hok
    | some e =>
        cases e with
        | reserved => simp [connect_player, hc] at hok
        | clientConnected tx p => simp [connect_player, hc] at hok
        | serverConnected tx p => simp [connect_player, hc]
  · intro key sm st hok
    cases hc : s.router.routing_table key with
    | none => simp [run_bot_rendezvous, hc] at hok
    | some e =>
        cases e with
        | reserved => simp [run_bot_rendezvous, hc] at hok
        | clientConnected tx p => simp [run_bot_rendezvous, hc]
        | serverConnected tx p => simp [run_bot_rendezvous, hc] at hok

/-- Witness for C8: the step that registers fresh token `T` from the initial
state. -/
theorem router_entry_lifecycle_witness :
    Reachable initState
    ∧ Step initState reservedSys
    ∧ ((∀ k, KeyTransition (initState.router.routing_table k)
          (reservedSys.router.routing_table k))
      ∧ (∀ (key : String) (cm : StreamId) (ch : ChanId),
          (connect_player key cm initState.router).1 = .ok (.connected ch) →
            (connect_player key cm initState.router).2.routing_table key = none)
      ∧ (∀ (key : String) (sm : ChanId) (st : StreamId),
          (run_bot_rendezvous key sm initState.router).1 = .ok (.connected st) →
            (run_bot_rendezvous key sm initState.router).2.routing_table key
              = none)) :=
  ⟨Relation.ReflTransGen.refl, Step.reserve initState "T" rfl,
    router_entry_lifecycle initState reservedSys Relation.ReflTransGen.refl
      (Step.reserve initState "T" rfl)⟩

end PlanetwarsBroker
